import Mathlib

/-!
Shallow embedding of src/frontend/src/components/TenderDashboard.jsx.

The component holds three pieces of state (tenderId, analysis, loading),
performs one POST request per activation of the trigger, maps a successful
JSON response into a stored result, and renders the stored result.
JavaScript numbers appearing in the response are modelled as Int; fields of
a JSON object that may be absent (undefined) are modelled as Option values.
-/

namespace TenderDashboard

/-- A price_range object of the response body; min and max may be absent. -/
structure PriceRangeObj where
  min : Option Int
  max : Option Int
  deriving DecidableEq

/-- The parsed JSON response body; every expected field may be absent. -/
structure ResponseBody where
  title : Option String
  price_range : Option PriceRangeObj
  confidence : Option Int
  requirements : Option (List String)
  compliance : Option Int
  deriving DecidableEq

/-- The nested priceRange object constructed by setAnalysis; the object itself
always exists once constructed, but its fields copy possibly absent values. -/
structure StoredPriceRange where
  min : Option Int
  max : Option Int
  deriving DecidableEq

/-- The value passed to setAnalysis: the camelCase analysis record held in the
component state. Fields copied from an absent response field are absent. -/
structure StoredResult where
  title : Option String
  priceRange : StoredPriceRange
  confidence : Option Int
  requirements : Option (List String)
  compliance : Option Int
  deriving DecidableEq

/-- The three useState fields of the component. -/
structure DashboardState where
  tenderId : String
  analysis : Option StoredResult
  loading : Bool
  deriving DecidableEq

/-- Initial state: useState for tenderId, analysis and loading. -/
def initialState : DashboardState :=
  { tenderId := "", analysis := none, loading := false }

/-- Result of awaiting response.json(): either a parse rejection carrying an
error message, or the parsed body. -/
inductive ParseResult where
  | parseError (msg : String)
  | parsed (data : ResponseBody)
  deriving DecidableEq

/-- Outcome of the awaited fetch: the promise rejects with an error message,
or resolves to a response with an ok flag and a body parse result. -/
inductive FetchOutcome where
  | networkError (msg : String)
  | response (ok : Bool) (body : ParseResult)
  deriving DecidableEq

/-- The JSON.stringify payload of the request. -/
structure RequestBody where
  tender_id : String
  tender_url : Option String
  deriving DecidableEq

/-- One fetch call as issued by the component. -/
structure Request where
  url : String
  method : String
  contentType : String
  body : RequestBody
  deriving DecidableEq

/-- Observable side effects of one run of analyzeTender: fetch calls issued,
alert messages shown, and console.error log lines. -/
structure Effects where
  requests : List Request
  alerts : List String
  logs : List String
  deriving DecidableEq

/-- The fixed fetch URL of the component. -/
def apiUrl : String := "http://localhost:8000/api/analyze-tender"

/-- The alert text shown by the catch block. -/
def failAlert : String := "Failed to analyze tender. Please try again."

/-- The first console.error argument of the catch block. -/
def errLogLead : String := "Error analyzing tender: "

/-- Body of the try block after the fetch is awaited: checks response.ok,
awaits response.json(), and builds the setAnalysis record. Accessing
data.price_range.min when price_range is absent throws a TypeError, modelled
as an error result; any other absent field is copied silently. Returns the
thrown error message or the record passed to setAnalysis. -/
def tryBody : FetchOutcome → Except String StoredResult
  | .networkError msg => .error msg
  | .response ok body =>
    if !ok then .error "Analysis failed"
    else
      match body with
      | .parseError msg => .error msg
      | .parsed data =>
        match data.price_range with
        | none => .error "TypeError: cannot read min of undefined"
        | some pr =>
          .ok { title := data.title
                priceRange := { min := pr.min, max := pr.max }
                confidence := data.confidence
                requirements := data.requirements
                compliance := data.compliance }

/-- One run of analyzeTender: setLoading(true), one fetch with the POST
payload, then try/catch on the outcome, with the finally clause clearing
loading on every exit path. Returns the new state and the side effects. -/
def analyzeTender (s : DashboardState) (o : FetchOutcome) :
    DashboardState × Effects :=
  let s₁ : DashboardState := { s with loading := true }
  let req : Request :=
    { url := apiUrl, method := "POST", contentType := "application/json",
      body := { tender_id := s.tenderId, tender_url := none } }
  let (s₂, eff) : DashboardState × Effects :=
    match tryBody o with
    | .ok a =>
        ({ s₁ with analysis := some a },
         { requests := [req], alerts := [], logs := [] })
    | .error msg =>
        (s₁,
         { requests := [req], alerts := [failAlert],
           logs := [errLogLead ++ msg] })
  ({ s₂ with loading := false }, eff)

/-- Groups a reversed digit list into chunks of three. -/
def chunk3 : List Char → List (List Char)
  | [] => []
  | a :: b :: c :: rest => [a, b, c] :: chunk3 rest
  | l => [l]

/-- Model of Number.prototype.toLocaleString for integers: digits grouped in
threes separated by commas. -/
def jsLocaleString (n : Int) : String :=
  let rev := (toString n.natAbs).data.reverse
  let groups := (chunk3 rev).map List.reverse
  let body := String.intercalate "," (groups.reverse.map String.mk)
  (if n < 0 then "-" else "") ++ body

/-- Model of rendering a possibly absent number inside JSX: React renders
undefined as nothing. -/
def jsDisplay : Option Int → String
  | none => ""
  | some n => toString n

/-- The fixed decorative marker rendered next to each requirement item. -/
def checkCircle : String := "CheckCircle"

/-- One rendered requirement list item: the fixed marker and the text. -/
structure ReqItem where
  marker : String
  text : String
  deriving DecidableEq

/-- The rendered price panel. -/
structure PricePanel where
  rangeText : String
  confidenceText : String
  deriving DecidableEq

/-- The three rendered result panels. -/
structure ResultPanels where
  pricePanel : PricePanel
  complianceText : String
  requirementsPanel : List ReqItem
  deriving DecidableEq

/-- Rendering of the result panels from a stored result. Evaluates
analysis.priceRange.min.toLocaleString(), the max counterpart, and
analysis.requirements.map; when one of those three fields is absent the
render throws (none). Absent title, confidence or compliance render without
throwing. -/
def renderPanels (a : StoredResult) : Option ResultPanels :=
  match a.priceRange.min, a.priceRange.max, a.requirements with
  | some mn, some mx, some reqs =>
      some
        { pricePanel :=
            { rangeText :=
                "€" ++ jsLocaleString mn ++ " - €" ++ jsLocaleString mx,
              confidenceText := "Confidence: " ++ jsDisplay a.confidence ++ "%" },
          complianceText := jsDisplay a.compliance ++ "%",
          requirementsPanel :=
            reqs.map (fun r => { marker := checkCircle, text := r }) }
  | _, _, _ => none

/-- The result area of the page: nothing when analysis is null, the panels
when rendering succeeds, or a render-time exception. -/
inductive ResultSection where
  | empty
  | panels (p : ResultPanels)
  | renderError
  deriving DecidableEq

/-- Rendering of the conditional result area from the analysis state. -/
def renderSection : Option StoredResult → ResultSection
  | none => .empty
  | some a =>
      match renderPanels a with
      | some p => .panels p
      | none => .renderError

/-- The rendered trigger button. -/
structure ButtonView where
  disabled : Bool
  label : String
  deriving DecidableEq

/-- The rendered page. -/
structure DashboardView where
  inputValue : String
  button : ButtonView
  resultSection : ResultSection
  deriving DecidableEq

/-- Rendering of the whole component from its state: the input bound to
tenderId, the button disabled when loading or tenderId is empty with its
label switching on loading, and the conditional result area. -/
def renderDashboard (s : DashboardState) : DashboardView :=
  { inputValue := s.tenderId,
    button :=
      { disabled := s.loading || s.tenderId == "",
        label := if s.loading then "Analyzing..." else "Analyze" },
    resultSection := renderSection s.analysis }

/-- True on the outcomes the claims call failures: the fetch promise
rejects, the response status is non-success, or response.json() rejects. -/
def isFailureOutcome : FetchOutcome → Bool
  | .networkError _ => true
  | .response ok body =>
      !ok ||
        (match body with
         | .parseError _ => true
         | .parsed _ => false)

end TenderDashboard

namespace TenderDashboard

/-- Helper: renderPanels on a stored result whose min, max and requirements
are all present yields exactly the three panels. -/
theorem renderPanels_all_present (a : StoredResult) (mn mx : Int)
    (reqs : List String) (hmn : a.priceRange.min = some mn)
    (hmx : a.priceRange.max = some mx) (hr : a.requirements = some reqs) :
    renderPanels a = some
      { pricePanel :=
          { rangeText := "€" ++ jsLocaleString mn ++ " - €" ++ jsLocaleString mx,
            confidenceText := "Confidence: " ++ jsDisplay a.confidence ++ "%" },
        complianceText := jsDisplay a.compliance ++ "%",
        requirementsPanel :=
          reqs.map (fun r => { marker := checkCircle, text := r }) } := by
  unfold renderPanels
  rw [hmn, hmx, hr]

/-- C1: for every non-empty tenderId and every success-status response whose
body carries all expected fields, analyzeTender stores an analysis whose
fields equal the response fields exactly, with snake_case renamed to
camelCase and the old stored result replaced wholesale. -/
theorem analyzeTender_success_maps_fields
    (s : DashboardState) (t : String) (mn mx c cm : Int) (reqs : List String)
    (_h : s.tenderId ≠ "") :
    (analyzeTender s (FetchOutcome.response true (ParseResult.parsed
        { title := some t,
          price_range := some { min := some mn, max := some mx },
          confidence := some c, requirements := some reqs,
          compliance := some cm }))).1.analysis
      = some { title := some t,
               priceRange := { min := some mn, max := some mx },
               confidence := some c, requirements := some reqs,
               compliance := some cm } := rfl

/-- Witness for C1 at the spec scenario input. -/
theorem analyzeTender_success_maps_fields_witness :
    "T-1001" ≠ "" ∧
    (analyzeTender { tenderId := "T-1001", analysis := none, loading := false }
        (FetchOutcome.response true (ParseResult.parsed
          { title := some "Road Maintenance",
            price_range := some { min := some 50000, max := some 75000 },
            confidence := some 82, requirements := some ["ISO 9001"],
            compliance := some 91 }))).1.analysis
      = some { title := some "Road Maintenance",
               priceRange := { min := some 50000, max := some 75000 },
               confidence := some 82, requirements := some ["ISO 9001"],
               compliance := some 91 } :=
  ⟨by decide,
   analyzeTender_success_maps_fields
     { tenderId := "T-1001", analysis := none, loading := false }
     "Road Maintenance" 50000 75000 82 91 ["ISO 9001"] (by decide)⟩

/-- C2: for every prior state and every failing outcome (network failure,
non-success status, or parse failure), the stored analysis is unchanged, the
failure alert is shown, and the underlying error is logged. -/
theorem analyzeTender_failure_preserves_state
    (s : DashboardState) (o : FetchOutcome) (h : isFailureOutcome o = true) :
    (analyzeTender s o).1.analysis = s.analysis
    ∧ (analyzeTender s o).2.alerts = [failAlert]
    ∧ ∃ m, (analyzeTender s o).2.logs = [errLogLead ++ m] := by
  cases o with
  | networkError msg => exact ⟨rfl, rfl, msg, rfl⟩
  | response ok body =>
    cases ok with
    | false => exact ⟨rfl, rfl, "Analysis failed", rfl⟩
    | true =>
      cases body with
      | parseError msg => exact ⟨rfl, rfl, msg, rfl⟩
      | parsed data => simp [isFailureOutcome] at h

/-- Witness for C2 at a concrete network failure from the initial state. -/
theorem analyzeTender_failure_preserves_state_witness :
    (analyzeTender initialState
        (FetchOutcome.networkError "Failed to fetch")).1.analysis
      = initialState.analysis
    ∧ (analyzeTender initialState
        (FetchOutcome.networkError "Failed to fetch")).2.alerts = [failAlert]
    ∧ ∃ m, (analyzeTender initialState
        (FetchOutcome.networkError "Failed to fetch")).2.logs
          = [errLogLead ++ m] :=
  analyzeTender_failure_preserves_state initialState
    (FetchOutcome.networkError "Failed to fetch") (by decide)

/-- C3: on every exit path of analyzeTender the finally clause leaves the
loading flag false. -/
theorem analyzeTender_clears_loading (s : DashboardState) (o : FetchOutcome) :
    (analyzeTender s o).1.loading = false := by
  cases h : tryBody o <;> simp [analyzeTender, h]

/-- C4: the trigger button is disabled exactly when tenderId is empty or
loading is true. -/
theorem button_disabled_iff_empty_or_loading (s : DashboardState) :
    (renderDashboard s).button.disabled = ((s.tenderId == "") || s.loading) := by
  simp [renderDashboard, Bool.or_comm]

/-- C5: a non-success status is a failure regardless of the body, and it
produces the same state and the same alert as a transport failure. -/
theorem nonOk_status_generic_failure
    (s : DashboardState) (body body' : ParseResult) (m : String) :
    analyzeTender s (FetchOutcome.response false body)
      = analyzeTender s (FetchOutcome.response false body')
    ∧ (analyzeTender s (FetchOutcome.response false body)).1
        = (analyzeTender s (FetchOutcome.networkError m)).1
    ∧ (analyzeTender s (FetchOutcome.response false body)).2.alerts
        = (analyzeTender s (FetchOutcome.networkError m)).2.alerts :=
  ⟨rfl, rfl, rfl⟩

/-- A success-status body whose title field is missing while every other
expected field is present. -/
def titleMissingBody : ResponseBody :=
  { title := none,
    price_range := some { min := some 50000, max := some 75000 },
    confidence := some 82, requirements := some ["ISO 9001"],
    compliance := some 91 }

/-- C6 counterexample: a success response missing the expected title field is
stored without any alert and the downstream render succeeds, so it is not
true that every missing expected field makes rendering fail. -/
theorem missing_title_renders_without_failure :
    (analyzeTender initialState
        (FetchOutcome.response true (ParseResult.parsed titleMissingBody))).2.alerts
      = []
    ∧ (analyzeTender initialState
        (FetchOutcome.response true (ParseResult.parsed titleMissingBody))).1.analysis
      = some { title := none,
               priceRange := { min := some 50000, max := some 75000 },
               confidence := some 82, requirements := some ["ISO 9001"],
               compliance := some 91 }
    ∧ renderSection (analyzeTender initialState
        (FetchOutcome.response true (ParseResult.parsed titleMissingBody))).1.analysis
      = ResultSection.panels
          { pricePanel := { rangeText := "€50,000 - €75,000",
                            confidenceText := "Confidence: 82%" },
            complianceText := "91%",
            requirementsPanel := [{ marker := checkCircle, text := "ISO 9001" }] } := by
  decide

/-- A success-status body whose price_range object is entirely missing. -/
def priceRangeMissingBody : ResponseBody :=
  { title := some "Road Maintenance", price_range := none,
    confidence := some 82, requirements := some ["ISO 9001"],
    compliance := some 91 }

/-- A stored result whose priceRange.min is missing. -/
def minMissingStored : StoredResult :=
  { title := some "Road Maintenance",
    priceRange := { min := none, max := some 75000 },
    confidence := some 82, requirements := some ["ISO 9001"],
    compliance := some 91 }

/-- C6 amended: there is no explicit validation, and rendering a stored
result throws exactly when priceRange.min, priceRange.max or requirements is
missing; a body missing the whole price_range object instead throws inside
the try block, so it is caught and surfaced by the alert with the stored
result unchanged. -/
theorem render_fails_iff_price_or_requirements_missing
    (a : StoredResult) (s : DashboardState) (data : ResponseBody)
    (hpr : data.price_range = none) :
    (renderPanels a = none ↔
      (a.priceRange.min = none ∨ a.priceRange.max = none
        ∨ a.requirements = none))
    ∧ (analyzeTender s
        (FetchOutcome.response true (ParseResult.parsed data))).1.analysis
      = s.analysis
    ∧ (analyzeTender s
        (FetchOutcome.response true (ParseResult.parsed data))).2.alerts
      = [failAlert] := by
  refine ⟨?_, ?_, ?_⟩
  · cases hmn : a.priceRange.min <;> cases hmx : a.priceRange.max <;>
      cases hr : a.requirements <;> simp [renderPanels, hmn, hmx, hr]
  · simp [analyzeTender, tryBody, hpr]
  · simp [analyzeTender, tryBody, hpr]

/-- Witness for the amended C6 at concrete malformed inputs. -/
theorem render_fails_iff_witness :
    (renderPanels minMissingStored = none ↔
      (minMissingStored.priceRange.min = none
        ∨ minMissingStored.priceRange.max = none
        ∨ minMissingStored.requirements = none))
    ∧ (analyzeTender initialState
        (FetchOutcome.response true (ParseResult.parsed priceRangeMissingBody))).1.analysis
      = initialState.analysis
    ∧ (analyzeTender initialState
        (FetchOutcome.response true (ParseResult.parsed priceRangeMissingBody))).2.alerts
      = [failAlert] :=
  render_fails_iff_price_or_requirements_missing minMissingStored initialState
    priceRangeMissingBody rfl

/-- C7: the requirements panel lists the stored requirements in exactly the
order received, each item paired with the fixed marker. -/
theorem requirements_render_in_order
    (a : StoredResult) (p : ResultPanels) (reqs : List String)
    (hr : a.requirements = some reqs) (hp : renderPanels a = some p) :
    p.requirementsPanel
      = reqs.map (fun r => { marker := checkCircle, text := r }) := by
  cases hmn : a.priceRange.min with
  | none => simp [renderPanels, hmn] at hp
  | some mn =>
    cases hmx : a.priceRange.max with
    | none => simp [renderPanels, hmn, hmx] at hp
    | some mx =>
      rw [renderPanels_all_present a mn mx reqs hmn hmx hr] at hp
      injection hp with hp
      rw [← hp]

/-- A stored result with the two spec-example requirements, used to witness
C7. -/
def twoReqStored : StoredResult :=
  { title := some "Road Maintenance",
    priceRange := { min := some 50000, max := some 75000 },
    confidence := some 82,
    requirements := some ["ISO 9001 certification", "Min. 3 years experience"],
    compliance := some 91 }

/-- The panels rendered from twoReqStored. -/
def twoReqPanels : ResultPanels :=
  { pricePanel := { rangeText := "€50,000 - €75,000",
                    confidenceText := "Confidence: 82%" },
    complianceText := "91%",
    requirementsPanel :=
      [{ marker := checkCircle, text := "ISO 9001 certification" },
       { marker := checkCircle, text := "Min. 3 years experience" }] }

/-- Witness for C7 at the spec-example requirement list. -/
theorem requirements_render_in_order_witness :
    twoReqPanels.requirementsPanel
      = ["ISO 9001 certification", "Min. 3 years experience"].map
          (fun r => { marker := checkCircle, text := r }) :=
  requirements_render_in_order twoReqStored twoReqPanels
    ["ISO 9001 certification", "Min. 3 years experience"] rfl (by decide)

/-- C8: every run of analyzeTender issues exactly one request, a POST to the
fixed analyze-tender endpoint whose JSON body carries the current tenderId
and a null tender_url. -/
theorem single_post_request (s : DashboardState) (o : FetchOutcome) :
    (analyzeTender s o).2.requests
      = [{ url := apiUrl, method := "POST", contentType := "application/json",
           body := { tender_id := s.tenderId, tender_url := none } }]
    ∧ apiUrl = "http://localhost:8000" ++ "/api/analyze-tender" := by
  refine ⟨?_, by decide⟩
  cases h : tryBody o <;> simp [analyzeTender, h]

/-- C9: the result area is a pure function of the stored analysis alone, and
when the analysis is absent nothing is rendered beyond the input section. -/
theorem render_depends_only_on_analysis
    (s₁ s₂ : DashboardState) (h : s₁.analysis = s₂.analysis) :
    (renderDashboard s₁).resultSection = (renderDashboard s₂).resultSection
    ∧ (s₁.analysis = none →
        (renderDashboard s₁).resultSection = ResultSection.empty) := by
  constructor
  · simp [renderDashboard, h]
  · intro h0
    simp [renderDashboard, h0, renderSection]

/-- Witness for C9 at the initial state. -/
theorem render_depends_only_on_analysis_witness :
    (renderDashboard initialState).resultSection
      = (renderDashboard initialState).resultSection
    ∧ (initialState.analysis = none →
        (renderDashboard initialState).resultSection = ResultSection.empty) :=
  render_depends_only_on_analysis initialState initialState rfl

/-- C10: initially tenderId is empty, the analysis is absent, loading is
false, the button starts disabled and no result panels are rendered. -/
theorem initial_state_properties :
    initialState.tenderId = "" ∧ initialState.analysis = none
    ∧ initialState.loading = false
    ∧ (renderDashboard initialState).button.disabled = true
    ∧ (renderDashboard initialState).resultSection = ResultSection.empty := by
  decide

end TenderDashboard
